import Mathlib

/-!
Shallow embedding of the CERN Indico conversion plugin
(`indico_conversion/conversion.py`): the retryable submission task
`submit_attachment`, the callback handler `RHConversionFinished._process`,
the polling handler `RHConversionCheck._process`, and the signed
correlation-token codec they use.

External collaborators (celery's `Task.retry`, the `itsdangerous`-based
`secure_serializer`, Python's `os.path.splitext`, `str`/`int`) are embedded
with their documented semantics; the network and the database are passed in
as explicit values.
-/

namespace Conversion

/-- `MAX_TRIES = 20` from conversion.py line 31. -/
def MAX_TRIES : Nat := 20

/-- `DELAYS = [30, 60, 120, 300, 600, 1800, 3600, 3600, 7200]` from line 32. -/
def DELAYS : List Nat := [30, 60, 120, 300, 600, 1800, 3600, 3600, 7200]

/-- The status cache (`pdf_state_cache`): a string-keyed key-value store.
Embedded as an association list; only `get`/`set`/`delete` are used. -/
abbrev Cache := List (String × String)

def Cache.empty : Cache := []

def Cache.get (c : Cache) (k : String) : Option String :=
  (List.find? (fun p => p.1 == k) c).map Prod.snd

def Cache.delete (c : Cache) (k : String) : Cache :=
  List.filter (fun p => p.1 != k) c

def Cache.set (c : Cache) (k v : String) : Cache :=
  (k, v) :: c.delete k

/-- Result of celery's `Task.retry`: either the task is re-sent with the
retry counter incremented (raising `Retry`), or `MaxRetriesExceededError`
is raised. -/
inductive RetryResult where
  | retry (newRetries : Nat) (countdown : Nat)
  | maxExceeded
deriving DecidableEq, Repr

/-- Celery `Task.retry` semantics (celery is an external dependency; this
mirrors its documented behaviour): the re-sent task carries
`request.retries + 1`, and `MaxRetriesExceededError` is raised when a
`max_retries` bound is given and would be exceeded.  `maxRetries = none`
models an unlimited bound (the task is declared with `max_retries=None`). -/
def celeryRetry (retries : Nat) (countdown : Nat) (maxRetries : Option Nat) :
    RetryResult :=
  match maxRetries with
  | some m => if retries + 1 > m then .maxExceeded else .retry (retries + 1) countdown
  | none => .retry (retries + 1) countdown

/-- Outcome of the HTTP POST to the conversion server: either
`requests.post`/`raise_for_status` raised (`fail`), or a response came back
with a given success flag and body text. -/
inductive HttpResult where
  | fail
  | response (statusOk : Bool) (text : String)
deriving DecidableEq, Repr

/-- Substring test on character lists, used for `'ok' not in response.text`. -/
def hasSub (needle : List Char) : List Char → Bool
  | [] => needle.isEmpty
  | c :: t => List.isPrefixOf needle (c :: t) || hasSub needle t

/-- The failure classification of one submission attempt: a transport error,
a non-success HTTP status (`raise_for_status`), or a body lacking the literal
substring `ok` (lines 57-60 of conversion.py). -/
def attemptFailed : HttpResult → Bool
  | .fail => true
  | .response statusOk text => !statusOk || !(hasSub "ok".toList text.toList)

/-- The delay computation of `submit_attachment` (lines 62-67):
`DELAYS[task.request.retries] if not config.DEBUG else 1`, with
`IndexError` caught and replaced by `DELAYS[-1]`. -/
def delayFor (debug : Bool) (retries : Nat) : Nat :=
  if !debug then
    match DELAYS[retries]? with
    | some d => d
    | none => DELAYS.getLastD 0
  else 1

/-- Observable outcome of one execution of the `submit_attachment` task. -/
inductive SubmitOutcome where
  | maintenancePause (newRetries : Nat) (countdown : Nat)
  | succeeded
  | awaitingRetry (newRetries : Nat) (countdown : Nat)
  | givenUp
deriving DecidableEq, Repr

/-- One execution of the celery task `submit_attachment` (lines 35-80),
given the maintenance flag, `config.DEBUG`, the HTTP outcome, the current
`task.request.retries`, the status cache and the attachment id.  Returns
the outcome together with the cache afterwards.  Building the outbound
request (correlation token, sanitized filename) has no effect on the retry
state machine or the cache and is not replayed here. -/
def submitAttachmentOnce (maintenance debug : Bool) (http : HttpResult)
    (retries : Nat) (cache : Cache) (attachmentId : Nat) :
    SubmitOutcome × Cache :=
  if maintenance then
    match celeryRetry retries 900 none with
    | .retry r cd => (.maintenancePause r cd, cache)
    | .maxExceeded => (.givenUp, cache)
  else if attemptFailed http then
    let delay := delayFor debug retries
    match celeryRetry retries delay (some (MAX_TRIES - 1)) with
    | .retry r cd => (.awaitingRetry r cd, cache)
    | .maxExceeded => (.givenUp, cache.delete (toString attachmentId))
  else
    (.succeeded, cache)

/-- Driver for a job whose submission fails on every attempt: repeatedly
execute `submit_attachment` (maintenance off) while it schedules a retry,
counting executions.  Fuel bounds the recursion; the third component is
`true` when the run ended in the terminal given-up outcome (rather than by
exhausting fuel). -/
def runAllFailing (debug : Bool) (attachmentId : Nat) :
    Nat → Nat → Cache → Nat → Nat × Cache × Bool
  | 0, _, cache, execs => (execs, cache, false)
  | fuel + 1, retries, cache, execs =>
    match submitAttachmentOnce false debug .fail retries cache attachmentId with
    | (.awaitingRetry r _, cache') =>
        runAllFailing debug attachmentId fuel r cache' (execs + 1)
    | (_, cache') => (execs + 1, cache', true)

theorem Cache.get_delete (c : Cache) (k : String) :
    (c.delete k).get k = none := by
  induction c with
  | nil => rfl
  | cons p t ih =>
      show Cache.get (List.filter (fun q => q.1 != k) (p :: t)) k = none
      rw [List.filter_cons]
      by_cases h : p.1 = k
      · simp only [h, bne_self_eq_false, if_neg Bool.false_ne_true]
        exact ih
      · simp only [bne_iff_ne, ne_eq, h, not_false_eq_true, if_true]
        show Cache.get ((p :: List.filter (fun q => q.1 != k) t) : Cache) k = none
        unfold Cache.get at ih ⊢
        rw [List.find?_cons_of_neg]
        · exact ih
        · simp [h]

theorem Cache.get_set (c : Cache) (k v : String) :
    (c.set k v).get k = some v := by
  simp [Cache.set, Cache.get, List.find?]

/-- Modelled from the spec: the `secure_serializer` correlation-token codec
(`itsdangerous`, not in src/) — "a keyed-HMAC over a canonical serialization
of the payload plus namespace".  A structurally well-formed token carries
the payload (the attachment id) and a tag; the MAC itself is a concrete
keyed function of (key, salt, payload). -/
structure SignedToken where
  payload : Nat
  tag : Nat
deriving DecidableEq, Repr

/-- Modelled from the spec: the keyed MAC over the payload and the
namespace salt.  Any concrete keyed function works for the properties
verified here; this one mixes the key, the salt's characters and the
payload. -/
def macTag (key : Nat) (salt : String) (payload : Nat) : Nat :=
  (key * 1000003 + payload * 1009 +
    (salt.toList.map Char.toNat).sum * 31) % 1000000007

/-- The namespace (`salt='pdf-conversion'`) used at lines 48 and 92. -/
def pdfSalt : String := "pdf-conversion"

/-- Modelled from the spec: `secure_serializer.dumps(payload, salt=...)`. -/
def encode (key : Nat) (salt : String) (payload : Nat) : SignedToken :=
  { payload := payload, tag := macTag key salt payload }

/-- A wire-level token: `none` models a string that does not even parse as
a token (empty string, structural corruption); `some t` a structurally
well-formed token whose signature still has to be checked. -/
abbrev TokenWire := Option SignedToken

/-- Modelled from the spec: `secure_serializer.loads(token, salt=...)`;
returns `none` (the `BadData` outcome) on structural corruption or a tag
that does not match the MAC under this key and salt. -/
def decode (key : Nat) (salt : String) : TokenWire → Option Nat
  | none => none
  | some t => if t.tag = macTag key salt t.payload then some t.payload else none

theorem decode_encode (key : Nat) (salt : String) (payload : Nat) :
    decode key salt (some (encode key salt payload)) = some payload := by
  simp [decode, encode]

/-- The subset of an `Attachment` row that the callback handler reads:
its id, the two deletion flags (`is_deleted`, `folder.is_deleted`) and the
fields copied into the derived PDF attachment. -/
structure AttachmentRow where
  id : Nat
  is_deleted : Bool
  folder_is_deleted : Bool
  filename : String
  title : String
  description : String
deriving DecidableEq, Repr

/-- A derived PDF attachment created by the callback handler
(`pdf_attachment` plus its `AttachmentFile`, lines 101-109). -/
structure DerivedPdf where
  sourceId : Nat
  filename : String
  content : List Nat
deriving DecidableEq, Repr

/-- The mutable state the handlers touch: the attachment table (read-only
for the handler's lookup), the derived attachments added via
`db.session.add`, and the status cache. -/
structure World where
  attachments : List AttachmentRow
  created : List DerivedPdf
  cache : Cache
deriving DecidableEq

/-- `Attachment.get(id)` (line 94): look the row up by id. -/
def attachmentGet (w : World) (id : Nat) : Option AttachmentRow :=
  List.find? (fun a => a.id == id) w.attachments

/-- Modelled from the spec: Python's `os.path.splitext` (stdlib, not in
src/) in the common case — split at the last dot, no dot meaning no
extension. -/
def splitext (s : String) : String × String :=
  let cs := s.toList
  match (cs.reverse.takeWhile (fun c => c != '.')).length with
  | n =>
    if n = cs.length then (s, "")
    else ((cs.take (cs.length - n - 1)).asString, (cs.drop (cs.length - n - 1)).asString)

/-- The inbound callback request seen by `RHConversionFinished._process`:
form fields `directory` (the correlation token) and `status`, and the file
part `content` (raw bytes). -/
structure CallbackRequest where
  directory : TokenWire
  status : String
  content : List Nat

/-- `RHConversionFinished._process` (lines 83-116): decode the token, drop
callbacks for missing/deleted attachments (reporting success), reject a
status other than `'1'` (reporting failure), otherwise create the derived
PDF attachment, persist it, and mark the cache entry `finished`.  Returns
the `success` flag of the JSON response and the world afterwards. -/
def conversionFinished (key : Nat) (req : CallbackRequest) (w : World) :
    Bool × World :=
  match decode key pdfSalt req.directory with
  | none => (false, w)
  | some attachmentId =>
    match attachmentGet w attachmentId with
    | none => (true, w)
    | some attachment =>
      if attachment.is_deleted || attachment.folder_is_deleted then
        (true, w)
      else if req.status != "1" then
        (false, w)
      else
        let name := (splitext attachment.filename).1
        let pdf : DerivedPdf :=
          { sourceId := attachmentId
            filename := name ++ ".pdf"
            content := req.content }
        (true,
          { w with
              created := w.created ++ [pdf]
              cache := w.cache.set (toString attachmentId) "finished" })

/-- Modelled from the spec: Python `int(...)` (stdlib) on the decimal
strings used as query args — the usual base-10 digit fold. -/
def pythonInt (s : String) : Nat :=
  s.toList.foldl (fun n c => n * 10 + (c.toNat - '0'.toNat)) 0

/-- Building the dict `{int(id_): pdf_state_cache.get(id_) for id_ in ids}`
(line 122): inserting an existing key overwrites in place, a new key is
appended (Python dict insertion order). -/
def dictInsert (d : List (Nat × Option String)) (k : Nat) (v : Option String) :
    List (Nat × Option String) :=
  if d.any (fun p => p.1 == k) then
    d.map (fun p => if p.1 == k then (k, v) else p)
  else
    d ++ [(k, v)]

/-- `RHConversionCheck._process` (lines 119-133) without the rendered
`containers` payload (presentation glue): classify each queried id string
into the `finished` and `pending` lists by its status-cache value. -/
def conversionCheck (cache : Cache) (ids : List String) :
    List Nat × List Nat :=
  let results := ids.foldl (fun d s => dictInsert d (pythonInt s) (cache.get s)) []
  (results.filterMap (fun p => if p.2 == some "finished" then some p.1 else none),
   results.filterMap (fun p => if p.2 == some "pending" then some p.1 else none))

/-!  ## Claims  -/

/-- C1: in the non-debug operating mode, for every attempt count `a` with
`0 ≤ a ≤ 8` the retry delay for the `a`-th failed attempt is the fixed
schedule `[30, 60, 120, 300, 600, 1800, 3600, 3600, 7200]` at index `a`,
and for every `a ≥ 9` it is the last value 7200 (saturating, never an
index-out-of-range error). -/
theorem delay_schedule_saturates (a : Nat) :
    (a ≤ 8 → delayFor false a = DELAYS.getD a 0) ∧
    (9 ≤ a → delayFor false a = 7200) := by
  constructor
  · intro h
    interval_cases a <;> rfl
  · intro h
    have h9 : DELAYS.length ≤ a := by simpa [DELAYS] using h
    have hn : DELAYS[a]? = none := List.getElem?_eq_none h9
    show (match DELAYS[a]? with | some d => d | none => DELAYS.getLastD 0) = 7200
    rw [hn]
    rfl

theorem delay_schedule_saturates_witness :
    (3 ≤ 8 ∧ delayFor false 3 = 300) ∧ (9 ≤ 12 ∧ delayFor false 12 = 7200) :=
  ⟨⟨by decide, ((delay_schedule_saturates 3).1 (by decide)).trans (by decide)⟩,
   ⟨by decide, (delay_schedule_saturates 12).2 (by decide)⟩⟩

/-- C2: a job whose submission fails on every attempt executes submit
exactly 20 times (1 initial try + 19 retries); after the 20th failure no
further retry is scheduled (the run ends in the terminal given-up outcome
with fuel to spare), and the job's status-cache entry is deleted, hence
absent afterwards. -/
theorem all_failing_gives_up_after_20 (attachmentId : Nat) (c : Cache) :
    runAllFailing false attachmentId 25 0 c 0 =
      (20, c.delete (toString attachmentId), true) ∧
    (runAllFailing false attachmentId 25 0 c 0).2.1.get (toString attachmentId)
      = none := by
  refine ⟨rfl, ?_⟩
  show (c.delete (toString attachmentId)).get (toString attachmentId) = none
  exact Cache.get_delete c _

/-- C3 counterexample: one maintenance-mode pause at retry counter 0
re-schedules the task with counter 1, not 0, so a pause does not leave the
attempt counter unchanged; the next failing attempt then selects
`DELAYS[1] = 60` rather than `DELAYS[0] = 30`. -/
theorem maintenance_pause_increments_counter_cex :
    (submitAttachmentOnce true false .fail 0 Cache.empty 7).1 =
      SubmitOutcome.maintenancePause 1 900 ∧
    ¬ ((submitAttachmentOnce true false .fail 0 Cache.empty 7).1 =
      SubmitOutcome.maintenancePause 0 900) ∧
    delayFor false 1 = 60 ∧ delayFor false 0 = 30 := by
  refine ⟨rfl, by decide, rfl, rfl⟩

/-- C3 (amended): in maintenance mode, submit schedules a retry after the
fixed 900-second delay and leaves the status cache unchanged, but the
re-scheduled task carries retry counter `retries + 1`: celery's `retry`
increments the same per-task counter that selects failure delays and is
checked against the 20-try maximum (it never raises
`MaxRetriesExceededError` here because the task's own `max_retries` is
`None`), so maintenance pauses shift delay selection and count against
give-up. -/
theorem maintenance_pause_schedules_900 (debug : Bool) (http : HttpResult)
    (retries : Nat) (c : Cache) (attachmentId : Nat) :
    submitAttachmentOnce true debug http retries c attachmentId =
      (SubmitOutcome.maintenancePause (retries + 1) 900, c) := rfl

/-- What a successful callback does: it appends exactly one derived PDF
attachment (source basename plus `.pdf`, the callback's bytes) and marks
the cache entry `str(attachment_id) → finished`, leaving the attachment
table unchanged. -/
theorem conversionFinished_success (key attachmentId : Nat) (content : List Nat)
    (w : World) (a : AttachmentRow)
    (hget : attachmentGet w attachmentId = some a)
    (hlive : (a.is_deleted || a.folder_is_deleted) = false) :
    conversionFinished key
      { directory := some (encode key pdfSalt attachmentId), status := "1",
        content := content } w =
      (true,
        { w with
            created := w.created ++
              [{ sourceId := attachmentId
                 filename := (splitext a.filename).1 ++ ".pdf"
                 content := content }]
            cache := w.cache.set (toString attachmentId) "finished" }) := by
  unfold conversionFinished
  simp [decode_encode, hget, hlive]

/-- C4: decoding the correlation token produced by encoding a payload with
the same signing key and the fixed namespace `pdf-conversion` succeeds and
returns that payload; such a well-formed, correctly-signed token never
fails to decode. -/
theorem token_roundtrip (key payload : Nat) :
    decode key pdfSalt (some (encode key pdfSalt payload)) = some payload :=
  decode_encode key pdfSalt payload

/-- C5: a callback whose correlation token fails to decode (signature
mismatch, corruption, wrong namespace, or an empty string — all the
`decode = none` cases) gets the failure response `success=false` and
mutates no state: the cache and the database are exactly as before. -/
theorem invalid_token_no_mutation (key : Nat) (req : CallbackRequest) (w : World)
    (h : decode key pdfSalt req.directory = none) :
    conversionFinished key req w = (false, w) := by
  unfold conversionFinished
  rw [h]

theorem invalid_token_no_mutation_witness :
    decode 0 pdfSalt (some { payload := 5, tag := 0 }) = none ∧
    conversionFinished 0
      { directory := some { payload := 5, tag := 0 }, status := "1", content := [] }
      { attachments := [], created := [], cache := [] } =
      (false, { attachments := [], created := [], cache := [] }) :=
  ⟨by decide, invalid_token_no_mutation 0 _ _ (by decide)⟩

/-- C6: a callback with a valid token whose referenced attachment no longer
exists, or is deleted at the attachment or folder level, gets the success
response `success=true` and applies no result: no derived attachment is
created and the cache is unchanged (the world is exactly as before). -/
theorem deleted_job_benign (key : Nat) (req : CallbackRequest) (w : World)
    (attachmentId : Nat)
    (hdec : decode key pdfSalt req.directory = some attachmentId)
    (hgone : (attachmentGet w attachmentId).all
      (fun a => a.is_deleted || a.folder_is_deleted) = true) :
    conversionFinished key req w = (true, w) := by
  unfold conversionFinished
  cases hga : attachmentGet w attachmentId with
  | none => simp [hdec, hga]
  | some a =>
      rw [hga] at hgone
      simp only [Option.all_some] at hgone
      simp [hdec, hga, hgone]

/-- A world whose only attachment (id 42) is marked deleted. -/
def deletedWorld : World :=
  { attachments := [{ id := 42, is_deleted := true, folder_is_deleted := false,
                      filename := "talk.pptx", title := "Talk", description := "" }]
    created := []
    cache := [] }

theorem deleted_job_benign_witness :
    decode 0 pdfSalt (some (encode 0 pdfSalt 42)) = some 42 ∧
    (attachmentGet deletedWorld 42).all
      (fun a => a.is_deleted || a.folder_is_deleted) = true ∧
    conversionFinished 0
      { directory := some (encode 0 pdfSalt 42), status := "1", content := [7] }
      deletedWorld = (true, deletedWorld) :=
  ⟨by decide, by decide, deleted_job_benign 0 _ _ 42 (by decide) (by decide)⟩

/-- C7: a callback with a valid token for an existing, non-deleted
attachment but a status field other than the success sentinel `"1"` gets
the failure response and changes nothing: the world (cache included) is
exactly as before and no derived attachment is created. -/
theorem bad_status_no_mutation (key : Nat) (req : CallbackRequest) (w : World)
    (attachmentId : Nat) (a : AttachmentRow)
    (hdec : decode key pdfSalt req.directory = some attachmentId)
    (hget : attachmentGet w attachmentId = some a)
    (hlive : (a.is_deleted || a.folder_is_deleted) = false)
    (hst : req.status ≠ "1") :
    conversionFinished key req w = (false, w) := by
  unfold conversionFinished
  have hbne : (req.status != "1") = true := by simpa [bne_iff_ne] using hst
  simp [hdec, hget, hlive, hbne]

/-- A live (non-deleted) attachment row with id 42. -/
def liveRow : AttachmentRow :=
  { id := 42, is_deleted := false, folder_is_deleted := false,
    filename := "talk.pptx", title := "Talk", description := "" }

/-- A world holding one live attachment with id 42. -/
def liveWorld : World :=
  { attachments := [liveRow]
    created := []
    cache := [("42", "pending")] }

theorem bad_status_no_mutation_witness :
    decode 0 pdfSalt (some (encode 0 pdfSalt 42)) = some 42 ∧
    ("0" : String) ≠ "1" ∧
    conversionFinished 0
      { directory := some (encode 0 pdfSalt 42), status := "0", content := [7] }
      liveWorld = (false, liveWorld) :=
  ⟨by decide, by decide,
   bad_status_no_mutation 0 _ _ 42 liveRow
     (by decide) (by decide) (by decide) (by decide)⟩

/-- C8: handling a successful callback is not idempotent: delivering the
same success callback twice runs the result-application step both times —
each delivery returns success, each sets the cache entry to `finished`,
and the two deliveries together append two derived PDF attachments (no
deduplication). -/
theorem success_callback_not_idempotent (key attachmentId : Nat)
    (content : List Nat) (w : World) (a : AttachmentRow)
    (hget : attachmentGet w attachmentId = some a)
    (hlive : (a.is_deleted || a.folder_is_deleted) = false) :
    (conversionFinished key
      { directory := some (encode key pdfSalt attachmentId), status := "1",
        content := content } w).1 = true ∧
    (conversionFinished key
      { directory := some (encode key pdfSalt attachmentId), status := "1",
        content := content }
      (conversionFinished key
        { directory := some (encode key pdfSalt attachmentId), status := "1",
          content := content } w).2).1 = true ∧
    (conversionFinished key
      { directory := some (encode key pdfSalt attachmentId), status := "1",
        content := content }
      (conversionFinished key
        { directory := some (encode key pdfSalt attachmentId), status := "1",
          content := content } w).2).2.created.length = w.created.length + 2 ∧
    (conversionFinished key
      { directory := some (encode key pdfSalt attachmentId), status := "1",
        content := content } w).2.cache.get (toString attachmentId)
      = some "finished" ∧
    (conversionFinished key
      { directory := some (encode key pdfSalt attachmentId), status := "1",
        content := content }
      (conversionFinished key
        { directory := some (encode key pdfSalt attachmentId), status := "1",
          content := content } w).2).2.cache.get (toString attachmentId)
      = some "finished" := by
  have h1 := conversionFinished_success key attachmentId content w a hget hlive
  have hget1 : attachmentGet
      (conversionFinished key
        { directory := some (encode key pdfSalt attachmentId), status := "1",
          content := content } w).2 attachmentId = some a := by
    rw [h1]; exact hget
  have h2 := conversionFinished_success key attachmentId content
    (conversionFinished key
      { directory := some (encode key pdfSalt attachmentId), status := "1",
        content := content } w).2 a hget1 hlive
  refine ⟨by rw [h1], by rw [h2], ?_, ?_, ?_⟩
  · rw [h2, h1]
    simp [List.length_append]
  · rw [h1]
    exact Cache.get_set _ _ _
  · rw [h2]
    exact Cache.get_set _ _ _

theorem success_callback_not_idempotent_witness :
    attachmentGet liveWorld 42 = some liveRow ∧
    (liveRow.is_deleted || liveRow.folder_is_deleted) = false ∧
    ((conversionFinished 0
      { directory := some (encode 0 pdfSalt 42), status := "1",
        content := [7] } liveWorld).1 = true ∧
    (conversionFinished 0
      { directory := some (encode 0 pdfSalt 42), status := "1",
        content := [7] }
      (conversionFinished 0
        { directory := some (encode 0 pdfSalt 42), status := "1",
          content := [7] } liveWorld).2).1 = true ∧
    (conversionFinished 0
      { directory := some (encode 0 pdfSalt 42), status := "1",
        content := [7] }
      (conversionFinished 0
        { directory := some (encode 0 pdfSalt 42), status := "1",
          content := [7] } liveWorld).2).2.created.length
      = liveWorld.created.length + 2 ∧
    (conversionFinished 0
      { directory := some (encode 0 pdfSalt 42), status := "1",
        content := [7] } liveWorld).2.cache.get (toString 42)
      = some "finished" ∧
    (conversionFinished 0
      { directory := some (encode 0 pdfSalt 42), status := "1",
        content := [7] }
      (conversionFinished 0
        { directory := some (encode 0 pdfSalt 42), status := "1",
          content := [7] } liveWorld).2).2.cache.get (toString 42)
      = some "finished") :=
  ⟨by decide, by decide,
   success_callback_not_idempotent 0 42 [7] liveWorld liveRow
     (by decide) (by decide)⟩

/-- Building the results dict over keys that are pairwise distinct after
`int(...)` conversion never overwrites, so it is a plain `map`. -/
theorem foldl_dictInsert_eq_append (cache : Cache) (ids : List String) :
    ∀ acc : List (Nat × Option String),
      (∀ s ∈ ids, ∀ p ∈ acc, p.1 ≠ pythonInt s) →
      (ids.map pythonInt).Nodup →
      ids.foldl (fun d s => dictInsert d (pythonInt s) (cache.get s)) acc =
        acc ++ ids.map (fun s => (pythonInt s, cache.get s)) := by
  induction ids with
  | nil => intro acc _ _; simp
  | cons s ids ih =>
      intro acc hacc hnd
      rw [List.foldl_cons]
      have hnotin : (acc.any (fun p => p.1 == pythonInt s)) = false := by
        rw [List.any_eq_false]
        intro p hp
        simpa using hacc s (List.mem_cons_self s ids) p hp
      have hd : dictInsert acc (pythonInt s) (cache.get s) =
          acc ++ [(pythonInt s, cache.get s)] := by
        unfold dictInsert
        rw [hnotin]
        simp
      rw [List.map_cons, List.nodup_cons] at hnd
      rw [hd, ih (acc ++ [(pythonInt s, cache.get s)]) ?_ hnd.2]
      · simp
      · intro t ht p hp
        rcases List.mem_append.mp hp with hpa | hpb
        · exact hacc t (List.mem_cons_of_mem s ht) p hpa
        · have hps := List.mem_singleton.mp hpb
          subst hps
          intro hcontra
          have hcontra' : pythonInt s = pythonInt t := hcontra
          exact hnd.1 (by rw [hcontra']; exact List.mem_map_of_mem pythonInt ht)

/-- When the converted ids are pairwise distinct, `conversionCheck` is a
per-id classification by cache value. -/
theorem conversionCheck_eq (cache : Cache) (ids : List String)
    (hnd : (ids.map pythonInt).Nodup) :
    conversionCheck cache ids =
      (ids.filterMap
        (fun s => if cache.get s == some "finished" then some (pythonInt s) else none),
       ids.filterMap
        (fun s => if cache.get s == some "pending" then some (pythonInt s) else none)) := by
  unfold conversionCheck
  rw [foldl_dictInsert_eq_append cache ids [] (by simp) hnd]
  rw [List.nil_append]
  simp only [List.filterMap_map]
  rfl

/-- C9: the status query classifies each queried id by its status-cache
value — an id whose entry is `finished` is in the finished list, one whose
entry is `pending` is in the pending list, and an id with no cache entry
appears in neither. -/
theorem check_classifies (cache : Cache) (ids : List String)
    (hnd : (ids.map pythonInt).Nodup) (s : String) (hs : s ∈ ids) :
    (pythonInt s ∈ (conversionCheck cache ids).1 ↔ cache.get s = some "finished") ∧
    (pythonInt s ∈ (conversionCheck cache ids).2 ↔ cache.get s = some "pending") ∧
    (cache.get s = none →
      pythonInt s ∉ (conversionCheck cache ids).1 ∧
      pythonInt s ∉ (conversionCheck cache ids).2) := by
  have key : ∀ v : String,
      (pythonInt s ∈ ids.filterMap
        (fun t => if cache.get t == some v then some (pythonInt t) else none) ↔
        cache.get s = some v) := by
    intro v
    constructor
    · intro hmem
      rcases List.mem_filterMap.mp hmem with ⟨t, ht, hft⟩
      by_cases hc : cache.get t == some v
      · rw [if_pos hc] at hft
        have hpt : pythonInt t = pythonInt s := by simpa using hft
        have hts : t = s := List.inj_on_of_nodup_map hnd ht hs hpt
        subst hts
        simpa using hc
      · rw [if_neg hc] at hft
        cases hft
    · intro hv
      exact List.mem_filterMap.mpr ⟨s, hs, by simp [hv]⟩
  rw [conversionCheck_eq cache ids hnd]
  refine ⟨key "finished", key "pending", fun hnone => ⟨fun hmem => ?_, fun hmem => ?_⟩⟩
  · have hsome := (key "finished").mp hmem
    rw [hnone] at hsome
    cases hsome
  · have hsome := (key "pending").mp hmem
    rw [hnone] at hsome
    cases hsome

/-- The concrete scenario of the status-query claim: id 1 finished, id 2
pending, id 3 absent. -/
def checkCache : Cache := [("1", "finished"), ("2", "pending")]

theorem check_classifies_witness :
    checkCache.get "1" = some "finished" ∧
    checkCache.get "2" = some "pending" ∧
    checkCache.get "3" = none ∧
    conversionCheck checkCache ["1", "2", "3"] = ([1], [2]) ∧
    pythonInt "1" ∈ (conversionCheck checkCache ["1", "2", "3"]).1 ∧
    pythonInt "2" ∈ (conversionCheck checkCache ["1", "2", "3"]).2 ∧
    pythonInt "3" ∉ (conversionCheck checkCache ["1", "2", "3"]).1 ∧
    pythonInt "3" ∉ (conversionCheck checkCache ["1", "2", "3"]).2 := by
  have h1 := check_classifies checkCache ["1", "2", "3"] (by decide) "1" (by decide)
  have h2 := check_classifies checkCache ["1", "2", "3"] (by decide) "2" (by decide)
  have h3 := check_classifies checkCache ["1", "2", "3"] (by decide) "3" (by decide)
  exact ⟨by decide, by decide, by decide, by decide,
    h1.1.mpr (by decide), h2.2.1.mpr (by decide),
    (h3.2.2 (by decide)).1, (h3.2.2 (by decide)).2⟩

/-- C10: the three operations address the status cache under the decimal
string form of the job id — the submitter's give-up deletes key
`str(attachment_id)`, a successful callback sets `finished` under
`str(attachment_id)`, and the status query looks up exactly the string it
receives — so the finished mark written by the callback is visible to a
subsequent poll for that same id. -/
theorem cache_keys_coincide (attachmentId key : Nat) (c : Cache)
    (content : List Nat) (w : World) (a : AttachmentRow)
    (hget : attachmentGet w attachmentId = some a)
    (hlive : (a.is_deleted || a.folder_is_deleted) = false) :
    (submitAttachmentOnce false false .fail 19 c attachmentId).2 =
      c.delete (toString attachmentId) ∧
    (conversionFinished key
      { directory := some (encode key pdfSalt attachmentId), status := "1",
        content := content } w).2.cache.get (toString attachmentId)
      = some "finished" ∧
    pythonInt (toString attachmentId) ∈
      (conversionCheck
        (conversionFinished key
          { directory := some (encode key pdfSalt attachmentId), status := "1",
            content := content } w).2.cache
        [toString attachmentId]).1 := by
  have h1 := conversionFinished_success key attachmentId content w a hget hlive
  refine ⟨rfl, ?_, ?_⟩
  · rw [h1]
    exact Cache.get_set _ _ _
  · rw [h1]
    have hgot : (w.cache.set (toString attachmentId) "finished").get
        (toString attachmentId) = some "finished" := Cache.get_set _ _ _
    unfold conversionCheck
    simp [dictInsert, hgot]

theorem cache_keys_coincide_witness :
    attachmentGet liveWorld 42 = some liveRow ∧
    (liveRow.is_deleted || liveRow.folder_is_deleted) = false ∧
    ((submitAttachmentOnce false false .fail 19 [("42", "pending")] 42).2 =
      Cache.delete [("42", "pending")] (toString 42) ∧
    (conversionFinished 0
      { directory := some (encode 0 pdfSalt 42), status := "1",
        content := [7] } liveWorld).2.cache.get (toString 42)
      = some "finished" ∧
    pythonInt (toString 42) ∈
      (conversionCheck
        (conversionFinished 0
          { directory := some (encode 0 pdfSalt 42), status := "1",
            content := [7] } liveWorld).2.cache
        [toString 42]).1) :=
  ⟨by decide, by decide,
   cache_keys_coincide 42 0 [("42", "pending")] [7] liveWorld liveRow
     (by decide) (by decide)⟩

end Conversion
